import Mathlib

set_option linter.unusedVariables false

/-!
Verification of the llm-tui GigaChat connector core against its
specification.  The Python source (src/llm_tui/llm_api/llm_api.py and
src/llm_tui/utils.py) is shallowly embedded below: pure helpers become
Lean functions, exception-raising code returns values in
`Except PyErr`, and methods that mutate the connector thread an
explicit state.  Network responses are parameters (the HTTP layer is an
external collaborator), so each handler is a function of the response
it would receive.
-/

/-- Model of a parsed-JSON Python value (the result of
`response.json()` and the payloads threaded through the handlers). -/
inductive PyObj where
  | pyNone
  | pyStr (s : String)
  | pyInt (n : Int)
  | pyList (xs : List PyObj)
  | pyDict (kvs : List (String × PyObj))

mutual

def pyObjDecEq : (a b : PyObj) → Decidable (a = b)
  | .pyNone, .pyNone => .isTrue rfl
  | .pyStr a, .pyStr b =>
    if h : a = b then .isTrue (by rw [h]) else .isFalse (fun hh => h (PyObj.pyStr.inj hh))
  | .pyInt a, .pyInt b =>
    if h : a = b then .isTrue (by rw [h]) else .isFalse (fun hh => h (PyObj.pyInt.inj hh))
  | .pyList a, .pyList b =>
    match pyObjListDecEq a b with
    | .isTrue h => .isTrue (by rw [h])
    | .isFalse h => .isFalse (fun hh => h (PyObj.pyList.inj hh))
  | .pyDict a, .pyDict b =>
    match pyObjKvsDecEq a b with
    | .isTrue h => .isTrue (by rw [h])
    | .isFalse h => .isFalse (fun hh => h (PyObj.pyDict.inj hh))
  | .pyNone, .pyStr _ => .isFalse nofun
  | .pyNone, .pyInt _ => .isFalse nofun
  | .pyNone, .pyList _ => .isFalse nofun
  | .pyNone, .pyDict _ => .isFalse nofun
  | .pyStr _, .pyNone => .isFalse nofun
  | .pyStr _, .pyInt _ => .isFalse nofun
  | .pyStr _, .pyList _ => .isFalse nofun
  | .pyStr _, .pyDict _ => .isFalse nofun
  | .pyInt _, .pyNone => .isFalse nofun
  | .pyInt _, .pyStr _ => .isFalse nofun
  | .pyInt _, .pyList _ => .isFalse nofun
  | .pyInt _, .pyDict _ => .isFalse nofun
  | .pyList _, .pyNone => .isFalse nofun
  | .pyList _, .pyStr _ => .isFalse nofun
  | .pyList _, .pyInt _ => .isFalse nofun
  | .pyList _, .pyDict _ => .isFalse nofun
  | .pyDict _, .pyNone => .isFalse nofun
  | .pyDict _, .pyStr _ => .isFalse nofun
  | .pyDict _, .pyInt _ => .isFalse nofun
  | .pyDict _, .pyList _ => .isFalse nofun

def pyObjListDecEq : (a b : List PyObj) → Decidable (a = b)
  | [], [] => .isTrue rfl
  | [], _ :: _ => .isFalse nofun
  | _ :: _, [] => .isFalse nofun
  | x :: xs, y :: ys =>
    match pyObjDecEq x y with
    | .isFalse h => .isFalse (fun hh => h (List.cons.inj hh).1)
    | .isTrue h1 =>
      match pyObjListDecEq xs ys with
      | .isTrue h2 => .isTrue (by rw [h1, h2])
      | .isFalse h => .isFalse (fun hh => h (List.cons.inj hh).2)

def pyObjKvsDecEq : (a b : List (String × PyObj)) → Decidable (a = b)
  | [], [] => .isTrue rfl
  | [], _ :: _ => .isFalse nofun
  | _ :: _, [] => .isFalse nofun
  | (k, v) :: xs, (k', v') :: ys =>
    if hk : k = k' then
      match pyObjDecEq v v' with
      | .isFalse h => .isFalse (fun hh => h (congrArg Prod.snd (List.cons.inj hh).1))
      | .isTrue h1 =>
        match pyObjKvsDecEq xs ys with
        | .isTrue h2 => .isTrue (by rw [hk, h1, h2])
        | .isFalse h => .isFalse (fun hh => h (List.cons.inj hh).2)
    else .isFalse (fun hh => hk (congrArg Prod.fst (List.cons.inj hh).1))

end

instance : DecidableEq PyObj := pyObjDecEq

/-- Model of the Python exception values raised (or escaping) in the
connector core.  Constructors carry the payloads the source attaches. -/
inductive PyErr where
  /-- `BadRequest(status_code)` — status without structured detail. -/
  | badRequest (statusCode : Option Nat)
  /-- `AuthorizationError(message, code)` from a structured 401 body
  (the source stores the body's `message`/`code` objects as-is). -/
  | authorizationError (message : PyObj) (code : PyObj)
  /-- generic `Exception(msg)` (used for 429, 403 and 500 branches). -/
  | exception (msg : String)
  /-- `ValueError(msg)` (duplicate chat, unknown model, 422, unpacking). -/
  | valueError (msg : String)
  /-- `binascii.Error` from base64 decoding. -/
  | binasciiError (msg : String)
  /-- `UnicodeDecodeError` from `bytes.decode()`. -/
  | unicodeDecodeError
  /-- `FileNotFoundError(msg)`. -/
  | fileNotFoundError (msg : String)
  /-- `KeyError` from a missing dict key. -/
  | keyError (key : String)
  /-- `IndexError` from an out-of-range list subscript. -/
  | indexError
  /-- `AttributeError` from reading an unset attribute. -/
  | attributeError (name : String)
  /-- `TypeError` from operating on a value of the wrong runtime type. -/
  | typeError (msg : String)
deriving DecidableEq

instance {ε α : Type} [DecidableEq ε] [DecidableEq α] : DecidableEq (Except ε α)
  | .error e₁, .error e₂ =>
    if h : e₁ = e₂ then .isTrue (by rw [h]) else .isFalse (fun hh => h (Except.error.inj hh))
  | .error _, .ok _ => .isFalse (fun hh => Except.noConfusion hh)
  | .ok _, .error _ => .isFalse (fun hh => Except.noConfusion hh)
  | .ok a₁, .ok a₂ =>
    if h : a₁ = a₂ then .isTrue (by rw [h]) else .isFalse (fun hh => h (Except.ok.inj hh))

/-- Model of `datetime.datetime`: an instant identified by its UTC epoch
seconds.  The source only constructs datetimes from epoch timestamps and
compares them, so the calendar field decomposition is irrelevant; the
order on instants is the order on epoch seconds. -/
structure Datetime where
  utcSeconds : Int
deriving DecidableEq, Repr

/-- Epoch seconds of `datetime.min` = 0001-01-01T00:00:00. -/
def datetimeMinSeconds : Int := -62135596800

/-- Epoch seconds of `datetime.max` (whole seconds) = 9999-12-31T23:59:59. -/
def datetimeMaxSeconds : Int := 253402300799

/-- Model of `datetime.datetime.utcfromtimestamp` on integer input:
succeeds exactly when the resulting year is in 1..9999, i.e. when the
timestamp lies in the representable datetime range, and raises
`ValueError` (year out of range) otherwise. -/
def utcfromtimestamp (t : Int) : Except PyErr Datetime :=
  if datetimeMinSeconds ≤ t ∧ t ≤ datetimeMaxSeconds then
    .ok ⟨t⟩
  else
    .error (.valueError "year is out of range")

/-- Embedding of `utils.get_datetime_from_timestamp`: try the direct
conversion; on `ValueError` retry with the timestamp floor-divided by
1000 (Python `//` is floor division, hence `Int.fdiv`). -/
def get_datetime_from_timestamp (t : Int) : Except PyErr Datetime :=
  match utcfromtimestamp t with
  | .ok dt => .ok dt
  | .error _ => utcfromtimestamp (Int.fdiv t 1000)

/-! ### Base64 decoding (`base64.b64decode`) -/

/-- Value of a base64 alphabet character, `none` for non-alphabet
characters (`=` included). -/
def b64DigitVal (c : Char) : Option Nat :=
  if 'A' ≤ c ∧ c ≤ 'Z' then some (c.toNat - 65)
  else if 'a' ≤ c ∧ c ≤ 'z' then some (c.toNat - 97 + 26)
  else if '0' ≤ c ∧ c ≤ '9' then some (c.toNat - 48 + 52)
  else if c = '+' then some 62
  else if c = '/' then some 63
  else none

def isB64Digit (c : Char) : Bool := (b64DigitVal c).isSome

/-- Strict base64 shape: a run of alphabet characters followed by at
most two `=` pads.  Together with the length-multiple-of-4 test below
this is exactly the set accepted by `b64decode(s, validate=True)`
(`binascii.a2b_base64` strict mode). -/
def b64Shape (cs : List Char) : Bool :=
  let rest := cs.dropWhile isB64Digit
  rest = [] || rest = ['='] || rest = ['='] ++ ['=']

/-- Reassemble 6-bit groups into bytes: four groups give three bytes, a
trailing pair gives one byte, a trailing triple gives two.  (A trailing
single group is rejected before this function is reached.) -/
def b64Quads : List Nat → List Nat
  | a :: b :: c :: d :: rest =>
      (a * 4 + b / 16) :: ((b % 16) * 16 + c / 4) :: ((c % 4) * 64 + d) :: b64Quads rest
  | [a, b] => [a * 4 + b / 16]
  | [a, b, c] => [a * 4 + b / 16, (b % 16) * 16 + c / 4]
  | _ => []

/-- Embedding of `base64.b64decode(s, validate=True)` on text input:
non-ASCII input raises `ValueError` (from the internal ASCII encode),
inputs failing the strict base64 shape or the length discipline raise
`binascii.Error` (the precise strict-mode message varies by case and is
never observed by this program, which catches the exception type), and
valid input yields the decoded bytes. -/
def b64decode (cs : List Char) : Except PyErr (List Nat) :=
  if cs.any (fun c => 127 < c.toNat) then
    .error (.valueError "string argument should contain only ASCII characters")
  else if !b64Shape cs then
    .error (.binasciiError "Only base64 data is allowed")
  else if cs.length % 4 ≠ 0 then
    .error (.binasciiError "Incorrect padding")
  else
    .ok (b64Quads (cs.filterMap b64DigitVal))

/-- Embedding of `utils.is_base64`: runs the validating decode, turns
`binascii.Error` into `False`, and lets any other exception (the
non-ASCII `ValueError`) escape. -/
def is_base64 (cs : List Char) : Except PyErr Bool :=
  match b64decode cs with
  | .ok _ => .ok true
  | .error (.binasciiError _) => .ok false
  | .error e => .error e

/-! ### UTF-8 decoding (`bytes.decode()`) -/

/-- Strict UTF-8 decoder, the semantics of Python `bytes.decode()` with
the default codec: rejects truncated sequences, stray continuation
bytes, overlong encodings, surrogates and code points above 0x10FFFF. -/
def utf8Decode : List Nat → Except PyErr (List Char)
  | [] => .ok []
  | b :: rest =>
    if b < 0x80 then
      match utf8Decode rest with
      | .ok cs => .ok (Char.ofNat b :: cs)
      | .error e => .error e
    else if 0xC2 ≤ b ∧ b ≤ 0xDF then
      match rest with
      | b1 :: rest' =>
        if 0x80 ≤ b1 ∧ b1 ≤ 0xBF then
          match utf8Decode rest' with
          | .ok cs => .ok (Char.ofNat ((b - 0xC0) * 64 + (b1 - 0x80)) :: cs)
          | .error e => .error e
        else .error .unicodeDecodeError
      | _ => .error .unicodeDecodeError
    else if 0xE0 ≤ b ∧ b ≤ 0xEF then
      match rest with
      | b1 :: b2 :: rest' =>
        if (0x80 ≤ b1 ∧ b1 ≤ 0xBF) ∧ (0x80 ≤ b2 ∧ b2 ≤ 0xBF)
            ∧ (b = 0xE0 → 0xA0 ≤ b1) ∧ (b = 0xED → b1 ≤ 0x9F) then
          match utf8Decode rest' with
          | .ok cs =>
              .ok (Char.ofNat ((b - 0xE0) * 4096 + (b1 - 0x80) * 64 + (b2 - 0x80)) :: cs)
          | .error e => .error e
        else .error .unicodeDecodeError
      | _ => .error .unicodeDecodeError
    else if 0xF0 ≤ b ∧ b ≤ 0xF4 then
      match rest with
      | b1 :: b2 :: b3 :: rest' =>
        if (0x80 ≤ b1 ∧ b1 ≤ 0xBF) ∧ (0x80 ≤ b2 ∧ b2 ≤ 0xBF) ∧ (0x80 ≤ b3 ∧ b3 ≤ 0xBF)
            ∧ (b = 0xF0 → 0x90 ≤ b1) ∧ (b = 0xF4 → b1 ≤ 0x8F) then
          match utf8Decode rest' with
          | .ok cs =>
              .ok (Char.ofNat
                ((b - 0xF0) * 262144 + (b1 - 0x80) * 4096 + (b2 - 0x80) * 64 + (b3 - 0x80)) :: cs)
          | .error e => .error e
        else .error .unicodeDecodeError
      | _ => .error .unicodeDecodeError
    else .error .unicodeDecodeError

/-! ### Credential validation (`GigaChatConnector.is_auth_token`) -/

/-- Python `str.split(sep)` for a single-character separator: splits on
every occurrence, keeping empty parts. -/
def pySplit (sep : Char) : List Char → List (List Char)
  | [] => [[]]
  | c :: rest =>
    if c = sep then
      [] :: pySplit sep rest
    else
      match pySplit sep rest with
      | part :: parts => (c :: part) :: parts
      | [] => [[c]]

def isLowerAlnum (c : Char) : Bool :=
  ('a' ≤ c && c ≤ 'z') || ('0' ≤ c && c ≤ '9')

/-- `n` characters satisfying `p`, then continue with `k`. -/
def takeRun (p : Char → Bool) : Nat → List Char → (List Char → Bool) → Bool
  | 0, cs, k => k cs
  | n + 1, c :: cs, k => p c && takeRun p n cs k
  | _ + 1, [], _ => false

/-- Embedding of `re.match(r"[a-z0-9]{8}(-[a-z0-9]{4}){3}-[a-z0-9]{8}", s)`
being a match: `re.match` anchors at the start only, so this tests that
`s` BEGINS with the pattern; any tail is accepted. -/
def secretShapeAt (cs : List Char) : Bool :=
  takeRun isLowerAlnum 8 cs fun r1 =>
    match r1 with
    | '-' :: r1' => takeRun isLowerAlnum 4 r1' fun r2 =>
        match r2 with
        | '-' :: r2' => takeRun isLowerAlnum 4 r2' fun r3 =>
            match r3 with
            | '-' :: r3' => takeRun isLowerAlnum 4 r3' fun r4 =>
                match r4 with
                | '-' :: r4' => takeRun isLowerAlnum 8 r4' fun _ => true
                | _ => false
            | _ => false
        | _ => false
    | _ => false

/-- Embedding of `GigaChatConnector.is_auth_token`.  Mirrors the source
line by line: the `is_base64` guard (whose non-ASCII `ValueError`
escapes), the unvalidated `base64.b64decode(string)` (identical to the
validating decode on every string the guard lets through), the UTF-8
`.decode()` (whose `UnicodeDecodeError` escapes), the `":" in decoded`
test, the two-target unpacking of `decoded.split(":")` (whose
`ValueError` escapes when the split yields more than two parts), and
the two `re.match` prefix tests. -/
def is_auth_token (cs : List Char) : Except PyErr Bool :=
  match is_base64 cs with
  | .error e => .error e
  | .ok false => .ok false
  | .ok true =>
    match b64decode cs with
    | .error e => .error e
    | .ok bytes =>
      match utf8Decode bytes with
      | .error e => .error e
      | .ok decoded =>
        if !decoded.any (fun c => c = ':') then .ok false
        else
          match pySplit ':' decoded with
          | [client_id, client_secret] =>
            if !secretShapeAt client_id || !secretShapeAt client_secret then .ok false
            else .ok true
          | _ => .error (.valueError "too many values to unpack (expected 2)")

/-- base64 of `"12345678-abcd-ef01-2345-678901234567:89abcdef-0123-4567-89ab-cdef01234567"`
(two genuine lowercase UUIDs). -/
def credGenuineUuids : String :=
  "MTIzNDU2NzgtYWJjZC1lZjAxLTIzNDUtNjc4OTAxMjM0NTY3Ojg5YWJjZGVmLTAxMjMtNDU2Ny04OWFiLWNkZWYwMTIzNDU2Nw=="

/-- base64 of `"aaaaaaaa-aaaa-aaaa-aaaa-aaaaaaaa:bbbbbbbb-bbbb-bbbb-bbbb-bbbbbbbb"`
(halves whose final dash-group has only 8 characters, not a UUID). -/
def credShortTails : String :=
  "YWFhYWFhYWEtYWFhYS1hYWFhLWFhYWEtYWFhYWFhYWE6YmJiYmJiYmItYmJiYi1iYmJiLWJiYmItYmJiYmJiYmI="

/-- base64 of `"AAAAAAAA-AAAA-AAAA-AAAA-AAAAAAAAAAAA:BBBBBBBB-BBBB-BBBB-BBBB-BBBBBBBBBBBB"`
(two uppercase UUID-shaped halves). -/
def credUpperUuids : String :=
  "QUFBQUFBQUEtQUFBQS1BQUFBLUFBQUEtQUFBQUFBQUFBQUFBOkJCQkJCQkJCLUJCQkItQkJCQi1CQkJCLUJCQkJCQkJCQkJCQg=="

/-- Hex alphabet as claim C4 words it: `[a-z0-9]` with case-insensitive
hex, i.e. `[a-zA-Z0-9]`. -/
def isClaimHex (c : Char) : Bool :=
  ('a' ≤ c && c ≤ 'z') || ('A' ≤ c && c ≤ 'Z') || ('0' ≤ c && c ≤ '9')

/-- The UUID shape exactly as claim C4 words it: the whole half matches
`[a-z0-9]{8}-[a-z0-9]{4}-[a-z0-9]{4}-[a-z0-9]{4}-[a-z0-9]{12}`
case-insensitively, with nothing left over. -/
def claimedUuidShape (cs : List Char) : Bool :=
  takeRun isClaimHex 8 cs fun r1 =>
    match r1 with
    | '-' :: r1' => takeRun isClaimHex 4 r1' fun r2 =>
        match r2 with
        | '-' :: r2' => takeRun isClaimHex 4 r2' fun r3 =>
            match r3 with
            | '-' :: r3' => takeRun isClaimHex 4 r3' fun r4 =>
                match r4 with
                | '-' :: r4' => takeRun isClaimHex 12 r4' fun r5 => r5 = []
                | _ => false
            | _ => false
        | _ => false
    | _ => false

/-- Claim C4's validity condition, following the claim's words: `s` is
valid base64 whose decoding is a text of the form `"<uuid>:<uuid>"`
with both halves of the claimed (full, case-insensitive) UUID shape. -/
def spec_is_valid_credential (cs : List Char) : Bool :=
  match b64decode cs with
  | .ok bytes =>
    match utf8Decode bytes with
    | .ok decoded =>
      match pySplit ':' decoded with
      | [a, b] => claimedUuidShape a && claimedUuidShape b
      | _ => false
    | .error _ => false
  | .error _ => false

/-- The amended validity condition describing what the code actually
checks: valid base64 decoding to text with exactly one `:`, each half
merely BEGINNING with the lowercase-only pattern
`[a-z0-9]{8}(-[a-z0-9]{4}){3}-[a-z0-9]{8}` (final group 8 characters,
match unanchored at the end, no case-insensitivity). -/
def amended_is_valid_credential (cs : List Char) : Bool :=
  match b64decode cs with
  | .ok bytes =>
    match utf8Decode bytes with
    | .ok decoded =>
      match pySplit ':' decoded with
      | [a, b] => secretShapeAt a && secretShapeAt b
      | _ => false
    | .error _ => false
  | .error _ => false

/-! ### Access tokens and the token manager -/

/-- Embedding of the `AccessToken` dataclass. -/
structure AccessToken where
  token : String
  expires_at : Datetime
deriving DecidableEq, Repr

/-- Embedding of `GigaChatConnector._is_active_access_token`.  The
source computes `datetime.now() > access_token.expires_at`, which is
`True` exactly when the token has ALREADY EXPIRED — the comparison is
inverted relative to the method's name. -/
def _is_active_access_token (now : Datetime) (access_token : AccessToken) : Bool :=
  access_token.expires_at.utcSeconds < now.utcSeconds

/-- Embedding of the `access_token` property read on a connector whose
`_access_token` attribute holds `stored`:
`if not self._is_active_access_token(self._access_token): self.authorize()`
then `return self._access_token`.  `fresh` is the token the
`authorize()` call would install, `now` the current instant.  Returns
the property value, the token held afterwards, and whether `authorize`
ran. -/
def access_token_read (now : Datetime) (fresh stored : AccessToken) :
    AccessToken × AccessToken × Bool :=
  if ¬ _is_active_access_token now stored then
    (fresh, fresh, true)
  else
    (stored, stored, false)

/-- `GigaChatConnector.OAUTH_URL`. -/
def OAUTH_URL : String := "https://ngw.devices.sberbank.ru:9443/api/v2/oauth"

/-- `GigaChatConnector.LLM_MODEL`. -/
def LLM_MODEL : String := "GigaChat"

/-- The OAuth request as `get_access_token` assembles it (headers and
form body of the `requests.post` call). -/
structure OAuthRequest where
  url : String
  contentTypeHeader : String
  acceptHeader : String
  rqUidHeader : String
  authorizationHeader : String
  bodyScope : String
deriving DecidableEq, Repr

/-- The request-construction half of
`get_access_token(auth_token, api_type)`: the `headers` and `body`
dicts passed to `requests.post`.  `rquid` is the `str(uuid4())`
correlation identifier (a parameter here, since it is freshly random).
`api_type` is accepted and never referenced, exactly as in the source;
the body's scope field is the literal `"GIGACHAT_API_PERS"`. -/
def build_oauth_request (auth_token : String) (api_type : String) (rquid : String) :
    OAuthRequest :=
  { url := OAUTH_URL
    contentTypeHeader := "application/x-www-form-urlencoded"
    acceptHeader := "application/json"
    rqUidHeader := rquid
    authorizationHeader := "Basic " ++ auth_token
    bodyScope := "GIGACHAT_API_PERS" }

/-- An HTTP response as the handlers observe it: the status code and
the parsed JSON body (`response.json()`). -/
structure HttpResponse where
  status_code : Nat
  body : PyObj
deriving DecidableEq

/-- Python `obj[key]` for a string key: the value when `obj` is a dict
containing `key`, `KeyError` when the key is absent, `TypeError`
otherwise. -/
def pyDictGet (o : PyObj) (k : String) : Except PyErr PyObj :=
  match o with
  | .pyDict kvs =>
    match kvs.lookup k with
    | some v => .ok v
    | none => .error (.keyError k)
  | _ => .error (.typeError "object is not subscriptable with a string key")

/-- Python `obj[i]` for a non-negative integer index: the element when
`obj` is a list long enough, `IndexError` when the index is out of
range, `TypeError` otherwise. -/
def pyIndex (o : PyObj) (i : Nat) : Except PyErr PyObj :=
  match o with
  | .pyList xs =>
    match xs.get? i with
    | some v => .ok v
    | none => .error .indexError
  | _ => .error (.typeError "object is not subscriptable with an integer index")

/-- The response-handling half of `get_access_token`: the
`match response.status_code` block.  On 200 it builds the
`AccessToken`, converting `expires_at` through
`get_datetime_from_timestamp` (non-integer `expires_at` payloads are
outside the modelled endpoint contract). -/
def handle_oauth_response (resp : HttpResponse) : Except PyErr AccessToken :=
  match resp.status_code with
  | 400 => .error (.badRequest (some 400))
  | 401 =>
    match pyDictGet resp.body "code" with
    | .error e => .error e
    | .ok code =>
      match pyDictGet resp.body "message" with
      | .error e => .error e
      | .ok message => .error (.authorizationError message code)
  | 200 =>
    match pyDictGet resp.body "access_token" with
    | .error e => .error e
    | .ok tokenObj =>
      match pyDictGet resp.body "expires_at" with
      | .error e => .error e
      | .ok expiresObj =>
        match tokenObj, expiresObj with
        | .pyStr tok, .pyInt ts =>
          match get_datetime_from_timestamp ts with
          | .error e => .error e
          | .ok dt => .ok { token := tok, expires_at := dt }
        | _, _ => .error (.typeError "token payload outside the modelled contract")
  | c => .error (.badRequest (some c))

/-! ### Conversation store and chat session state -/

/-- Embedding of the `GigaChatMessage` typed dict. -/
structure GigaChatMessage where
  role : String
  content : String
deriving DecidableEq, Repr

/-- The in-memory `chats` dict: chat id to message list, as an
insertion-ordered association list (Python dicts preserve insertion
order, which the JSON serialization below observes). -/
def Chats : Type := List (String × List GigaChatMessage)

instance : DecidableEq Chats := inferInstanceAs (DecidableEq (List _))

/-- `chat_id in self.chats`. -/
def dictHasKey (m : Chats) (k : String) : Bool :=
  m.any (fun kv => kv.1 = k)

/-- `self.chats[chat_id]` as an optional value. -/
def dictGet (m : Chats) (k : String) : Option (List GigaChatMessage) :=
  match m with
  | [] => none
  | (k', v) :: rest => if k' = k then some v else dictGet rest k

/-- `self.chats[chat_id] = v`: replaces the value in place when the key
exists (keeping its position), otherwise appends a new entry (Python
dict insertion order). -/
def dictSet (m : Chats) (k : String) (v : List GigaChatMessage) : Chats :=
  match m with
  | [] => [(k, v)]
  | (k', v') :: rest => if k' = k then (k, v) :: rest else (k', v') :: dictSet rest k v

/-- The connector state the conversation-store and session methods
touch: the in-memory `chats` dict, the `current_chat_id` attribute
(`none` while unset, i.e. before any `select_chat`), and the
chronological log of `write_chats_json` flushes — the on-disk image is
the last entry.  The token fields are independent of these methods and
are modelled by `access_token_read` above. -/
structure Connector where
  chats : Chats
  current_chat_id : Option String
  disk : List Chats
deriving DecidableEq

/-- Embedding of `write_chats_json`: synchronously rewrites the backing
file with the full current mapping. -/
def write_chats_json (st : Connector) : Connector :=
  { st with disk := st.disk ++ [st.chats] }

/-- Embedding of `is_chat_exists`. -/
def is_chat_exists (st : Connector) (chat_id : String) : Bool :=
  dictHasKey st.chats chat_id

/-- Embedding of `add_chat`: raises `ValueError` when the id already
exists (before any write), otherwise inserts an empty conversation and
flushes. -/
def add_chat (st : Connector) (chat_id : String) : Except PyErr Unit × Connector :=
  if is_chat_exists st chat_id then
    (.error (.valueError ("Chat " ++ chat_id ++ " already exists")), st)
  else
    let st1 : Connector := { st with chats := dictSet st.chats chat_id [] }
    (.ok (), write_chats_json st1)

/-- Embedding of `select_chat`. -/
def select_chat (st : Connector) (chat_id : String) : Except PyErr Unit × Connector :=
  if is_chat_exists st chat_id then
    (.ok (), { st with current_chat_id := some chat_id })
  else
    match add_chat st chat_id with
    | (.ok _, st1) => (.ok (), { st1 with current_chat_id := some chat_id })
    | (.error e, st1) => (.error e, st1)

/-- Embedding of `add_message`: appends
`{"role": role, "content": content}` to the active conversation and
flushes.  Reading an unset `current_chat_id` raises `AttributeError`;
an id missing from the dict raises `KeyError`. -/
def add_message (st : Connector) (role content : String) : Except PyErr Unit × Connector :=
  match st.current_chat_id with
  | none => (.error (.attributeError "current_chat_id"), st)
  | some cid =>
    match dictGet st.chats cid with
    | none => (.error (.keyError cid), st)
    | some conv =>
      let st1 : Connector := { st with chats := dictSet st.chats cid (conv ++ [⟨role, content⟩]) }
      (.ok (), write_chats_json st1)

/-- Embedding of `get_messages` / `_get_messages`: the active
conversation, or the empty list when the current id is unknown. -/
def get_messages (st : Connector) : Except PyErr (List GigaChatMessage) :=
  match st.current_chat_id with
  | none => .error (.attributeError "current_chat_id")
  | some cid =>
    match dictGet st.chats cid with
    | none => .ok []
    | some conv => .ok conv

/-! ### Completion client -/

/-- Display form of a response payload interpolated into an f-string;
exact on the scalar payloads the modelled endpoints send. -/
def pyStrOf : PyObj → String
  | .pyStr s => s
  | .pyInt n => toString n
  | .pyNone => "None"
  | .pyList _ => "<list>"
  | .pyDict _ => "<dict>"

/-- Python `response.json().get("message", "")`: dict lookup with a
default (`AttributeError` when the body is not a dict). -/
def pyGetDefault (o : PyObj) (k : String) (dflt : PyObj) : Except PyErr PyObj :=
  match o with
  | .pyDict kvs =>
    match kvs.lookup k with
    | some v => .ok v
    | none => .ok dflt
  | _ => .error (.attributeError "get")

/-- Embedding of `_get_answer`'s status dispatch (the request itself —
model name, full message list, `max_tokens` — is sent to the completion
endpoint; `resp` is what comes back). -/
def _get_answer (access_token : AccessToken) (max_tokens : Nat)
    (chat : List GigaChatMessage) (resp : HttpResponse) : Except PyErr PyObj :=
  match resp.status_code with
  | 200 => .ok resp.body
  | 401 =>
    match pyDictGet resp.body "code" with
    | .error e => .error e
    | .ok code =>
      match pyDictGet resp.body "message" with
      | .error e => .error e
      | .ok message => .error (.authorizationError message code)
  | 400 => .error (.badRequest (some 400))
  | 404 => .error (.valueError "[ 404 ] No such model")
  | 422 =>
    match pyGetDefault resp.body "message" (.pyStr "") with
    | .error e => .error e
    | .ok message => .error (.valueError ("[ 422 ] Validation error: " ++ pyStrOf message))
  | 429 => .error (.exception "[ 429 ] Too many requests")
  | 500 => .error (.exception "[ 500 ] Internal server error")
  | c => .error (.badRequest (some c))

/-- Embedding of `get_answer`: collects the active history, performs the
completion call (its response is the `resp` parameter; the
`self.access_token` property evaluated for the call affects only the
token state modelled by `access_token_read`), extracts
`answer["choices"][0]["message"]`, appends it as a message and returns
its content.  Non-string role/content payloads are outside the
modelled endpoint contract. -/
def get_answer (st : Connector) (tok : AccessToken) (max_tokens : Nat)
    (resp : HttpResponse) : Except PyErr String × Connector :=
  match get_messages st with
  | .error e => (.error e, st)
  | .ok messages =>
    match _get_answer tok max_tokens messages resp with
    | .error e => (.error e, st)
    | .ok answer =>
      match pyDictGet answer "choices" with
      | .error e => (.error e, st)
      | .ok choices =>
        match pyIndex choices 0 with
        | .error e => (.error e, st)
        | .ok first =>
          match pyDictGet first "message" with
          | .error e => (.error e, st)
          | .ok message =>
            match pyDictGet message "role" with
            | .error e => (.error e, st)
            | .ok roleObj =>
              match pyDictGet message "content" with
              | .error e => (.error e, st)
              | .ok contentObj =>
                match roleObj, contentObj with
                | .pyStr role, .pyStr content =>
                  match add_message st role content with
                  | (.ok _, st1) => (.ok content, st1)
                  | (.error e, st1) => (.error e, st1)
                | _, _ =>
                  (.error (.typeError "message payload outside the modelled contract"), st)

/-- Embedding of `ask`: append the user turn (with its flush), then run
`get_answer`. -/
def ask (st : Connector) (text : String) (tok : AccessToken) (max_tokens : Nat)
    (resp : HttpResponse) : Except PyErr String × Connector :=
  match add_message st "user" text with
  | (.error e, st1) => (.error e, st1)
  | (.ok _, st1) => get_answer st1 tok max_tokens resp

/-! ### Balance accessor -/

/-- Embedding of `_get_balance`'s status dispatch. -/
def _get_balance (resp : HttpResponse) : Except PyErr PyObj :=
  match resp.status_code with
  | 200 => .ok resp.body
  | 401 =>
    match pyDictGet resp.body "code" with
    | .error e => .error e
    | .ok code =>
      match pyDictGet resp.body "message" with
      | .error e => .error e
      | .ok message => .error (.authorizationError message code)
  | 403 => .error (.exception "[ 403 ] Permission denied. Check your tarification type")
  | c => .error (.badRequest (some c))

/-- The `for item in data["balance"]` scan: the first entry whose
`usage` equals the model name, or `none` when the loop finishes. -/
def balanceScan : List PyObj → Except PyErr (Option PyObj)
  | [] => .ok none
  | item :: rest =>
    match pyDictGet item "usage" with
    | .error e => .error e
    | .ok usage =>
      if usage = .pyStr LLM_MODEL then
        match pyDictGet item "value" with
        | .error e => .error e
        | .ok v => .ok (some v)
      else balanceScan rest

/-- The body of the `balance` property applied to a 200 payload `data`:
scan for the model's entry, and otherwise fall back to
`data["balance"][0]["value"]` — which subscripts the first element
unconditionally. -/
def balance_value (data : PyObj) : Except PyErr PyObj :=
  match pyDictGet data "balance" with
  | .error e => .error e
  | .ok (.pyList entries) =>
    match balanceScan entries with
    | .error e => .error e
    | .ok (some v) => .ok v
    | .ok none =>
      match pyIndex (.pyList entries) 0 with
      | .error e => .error e
      | .ok firstEntry => pyDictGet firstEntry "value"
  | .ok _ => .error (.typeError "balance payload is not iterable")

/-- Embedding of the `balance` property: `_get_balance` (on the
response the endpoint returns) followed by the scan/fallback. -/
def balance_read (resp : HttpResponse) : Except PyErr PyObj :=
  match _get_balance resp with
  | .error e => .error e
  | .ok data => balance_value data

/-- The error taxonomy documented in the spec (§7): ValidationFault,
BadRequest, AuthorizationError, RateLimited, ServerError,
NotFoundFault, DuplicateFault — i.e. exactly the exception kinds the
connector raises deliberately.  Incidental runtime faults (IndexError,
KeyError, TypeError, AttributeError, decode errors) are outside it. -/
def PyErr.isDocumentedFault : PyErr → Bool
  | .badRequest _ => true
  | .authorizationError _ _ => true
  | .exception _ => true
  | .valueError _ => true
  | .fileNotFoundError _ => true
  | _ => false

/-! ### The conversation-store JSON format

`_write_chats_json` runs `json.dump(chats, f, ensure_ascii=False,
indent=4)`; `_read_chats_json` runs `json.loads` on the file text.  The
serializer below reproduces `json.dump`'s output for the store's value
shape (a dict of lists of role/content dicts) character by character;
the parser models `json.loads` on the JSON fragment such files contain
(strings, arrays, objects — numeric, boolean and null literals never
appear in a store file). -/

def isJsonWs (c : Char) : Bool :=
  c = ' ' || c = '\t' || c = '\n' || c = '\r'

/-- The whitespace skipped between JSON tokens by `json.loads`. -/
def skipWs (cs : List Char) : List Char := cs.dropWhile isJsonWs

/-- Lowercase hex digit, as `'\u%04x' % ord(c)` prints it. -/
def toHexDigit (n : Nat) : Char :=
  if n < 10 then Char.ofNat (48 + n) else Char.ofNat (87 + n)

def fromHexDigit (c : Char) : Option Nat :=
  if '0' ≤ c ∧ c ≤ '9' then some (c.toNat - 48)
  else if 'a' ≤ c ∧ c ≤ 'f' then some (c.toNat - 87)
  else if 'A' ≤ c ∧ c ≤ 'F' then some (c.toNat - 55)
  else none

/-- `json.dumps` string escaping with `ensure_ascii=False`: escape the
quote, the backslash and C0 control characters (five of them by short
names, the rest as `\u00xx`); every other character — non-ASCII
included — is written literally. -/
def escChar (c : Char) : List Char :=
  if c = '"' then ['\\', '"']
  else if c = '\\' then ['\\', '\\']
  else if c = Char.ofNat 8 then ['\\', 'b']
  else if c = Char.ofNat 9 then ['\\', 't']
  else if c = Char.ofNat 10 then ['\\', 'n']
  else if c = Char.ofNat 12 then ['\\', 'f']
  else if c = Char.ofNat 13 then ['\\', 'r']
  else if c.toNat < 0x20 then
    ['\\', 'u', '0', '0', toHexDigit (c.toNat / 16), toHexDigit (c.toNat % 16)]
  else [c]

def escapeChars : List Char → List Char
  | [] => []
  | c :: rest => escChar c ++ escapeChars rest

def encodeJsonString (s : List Char) : List Char :=
  '"' :: escapeChars s ++ ['"']

/-- The newline-plus-indent separator `json.dump` emits with
`indent=4` at nesting level `lvl`. -/
def nlIndent (lvl : Nat) : List Char :=
  '\n' :: List.replicate (4 * lvl) ' '

/-- `json.dump` output for one message dict (keys in the insertion
order `add_message` uses: `role`, then `content`). -/
def dumpMessage (lvl : Nat) (m : GigaChatMessage) : List Char :=
  '{' :: (nlIndent (lvl + 1) ++ encodeJsonString "role".toList ++ ':' :: ' ' ::
    encodeJsonString m.role.toList ++ ',' :: nlIndent (lvl + 1) ++
    encodeJsonString "content".toList ++ ':' :: ' ' ::
    encodeJsonString m.content.toList ++ nlIndent lvl) ++ ['}']

/-- The comma-separated message items of a non-empty conversation. -/
def dumpMessages (lvl : Nat) : List GigaChatMessage → List Char
  | [] => []
  | [m] => dumpMessage lvl m
  | m :: rest => dumpMessage lvl m ++ ',' :: nlIndent lvl ++ dumpMessages lvl rest

/-- `json.dump` output for one conversation array. -/
def dumpConv (lvl : Nat) (msgs : List GigaChatMessage) : List Char :=
  match msgs with
  | [] => ['[', ']']
  | _ => '[' :: (nlIndent (lvl + 1) ++ dumpMessages (lvl + 1) msgs ++ nlIndent lvl) ++ [']']

/-- The comma-separated `"chat_id": [...]` items of a non-empty store. -/
def dumpChatsItems (lvl : Nat) : Chats → List Char
  | [] => []
  | [(k, v)] => encodeJsonString k.toList ++ ':' :: ' ' :: dumpConv lvl v
  | (k, v) :: rest =>
    encodeJsonString k.toList ++ ':' :: ' ' :: dumpConv lvl v ++ ',' :: nlIndent lvl ++
      dumpChatsItems lvl rest

/-- `json.dump(chats, jsf, ensure_ascii=False, indent=4)`: the full
file text. -/
def dumpChats (m : Chats) : List Char :=
  match m with
  | [] => ['{', '}']
  | _ => '{' :: (nlIndent 1 ++ dumpChatsItems 1 m ++ nlIndent 0) ++ ['}']

/-- Embedding of `_write_chats_json`: the text written over the backing
file. -/
def write_chats_text (m : Chats) : List Char := dumpChats m

def mapConsChar (c : Char) :
    Option (List Char × List Char) → Option (List Char × List Char)
  | some (s, r) => some (c :: s, r)
  | none => none

/-- Four hex digits as a code unit (`\uXXXX`). -/
def hex4 (h1 h2 h3 h4 : Char) : Option Nat :=
  match fromHexDigit h1, fromHexDigit h2, fromHexDigit h3, fromHexDigit h4 with
  | some x1, some x2, some x3, some x4 => some (x1 * 4096 + x2 * 256 + x3 * 16 + x4)
  | _, _, _, _ => none

mutual

/-- `json.loads` string scanning after the opening quote: literal
characters, short escapes, and `\uXXXX` (surrogate pairs combined).
Raw control characters are rejected (`strict=True`).  Lone-surrogate
escapes are rejected here although Python would build a string around
them: no valid store file contains one (a model restriction, not a
source behavior). -/
def parseStringBody : List Char → Option (List Char × List Char)
  | [] => none
  | c :: rest =>
    if c = '"' then some ([], rest)
    else if c = '\\' then parseStringEsc rest
    else if c.toNat < 0x20 then none
    else mapConsChar c (parseStringBody rest)

def parseStringEsc : List Char → Option (List Char × List Char)
  | [] => none
  | e :: r =>
    if e = '"' then mapConsChar '"' (parseStringBody r)
    else if e = '\\' then mapConsChar '\\' (parseStringBody r)
    else if e = '/' then mapConsChar '/' (parseStringBody r)
    else if e = 'b' then mapConsChar (Char.ofNat 8) (parseStringBody r)
    else if e = 'f' then mapConsChar (Char.ofNat 12) (parseStringBody r)
    else if e = 'n' then mapConsChar (Char.ofNat 10) (parseStringBody r)
    else if e = 'r' then mapConsChar (Char.ofNat 13) (parseStringBody r)
    else if e = 't' then mapConsChar (Char.ofNat 9) (parseStringBody r)
    else if e = 'u' then parseStringU r
    else none

def parseStringU : List Char → Option (List Char × List Char)
  | h1 :: h2 :: h3 :: h4 :: r =>
    match hex4 h1 h2 h3 h4 with
    | some n =>
      if 0xD800 ≤ n ∧ n ≤ 0xDBFF then parseStringUPair n r
      else if 0xDC00 ≤ n ∧ n ≤ 0xDFFF then none
      else mapConsChar (Char.ofNat n) (parseStringBody r)
    | none => none
  | _ => none

def parseStringUPair (n : Nat) : List Char → Option (List Char × List Char)
  | a :: b :: k1 :: k2 :: k3 :: k4 :: r2 =>
    if a = '\\' ∧ b = 'u' then
      match hex4 k1 k2 k3 k4 with
      | some n2 =>
        if 0xDC00 ≤ n2 ∧ n2 ≤ 0xDFFF then
          mapConsChar (Char.ofNat (0x10000 + (n - 0xD800) * 1024 + (n2 - 0xDC00)))
            (parseStringBody r2)
        else none
      | none => none
    else none
  | _ => none

end

mutual

/-- `json.loads` value parsing on the store fragment, with a fuel bound
on the nesting/step count (`json_loads` below supplies one that the
round-trip proof shows sufficient). -/
def parseJsonValue : Nat → List Char → Option (PyObj × List Char)
  | 0, _ => none
  | f + 1, cs =>
    match skipWs cs with
    | [] => none
    | c :: rest =>
      if c = '"' then
        match parseStringBody rest with
        | some (s, r) => some (.pyStr (String.mk s), r)
        | none => none
      else if c = '[' then
        match skipWs rest with
        | ']' :: r => some (.pyList [], r)
        | _ =>
          match parseJsonArrayItems f rest with
          | some (xs, r) => some (.pyList xs, r)
          | none => none
      else if c = '{' then
        match skipWs rest with
        | '}' :: r => some (.pyDict [], r)
        | _ =>
          match parseJsonObjectItems f rest with
          | some (kvs, r) => some (.pyDict kvs, r)
          | none => none
      else none
termination_by f cs => (f, 0)

def parseJsonArrayItems : Nat → List Char → Option (List PyObj × List Char)
  | 0, _ => none
  | f + 1, cs =>
    match parseJsonValue (f + 1) cs with
    | none => none
    | some (v, r) =>
      match skipWs r with
      | ']' :: r2 => some ([v], r2)
      | ',' :: r2 =>
        match parseJsonArrayItems f r2 with
        | some (xs, r3) => some (v :: xs, r3)
        | none => none
      | _ => none
termination_by f cs => (f, 1)

def parseJsonObjectItems : Nat → List Char → Option (List (String × PyObj) × List Char)
  | 0, _ => none
  | f + 1, cs =>
    match skipWs cs with
    | '"' :: rest =>
      match parseStringBody rest with
      | none => none
      | some (k, r) =>
        match skipWs r with
        | ':' :: r2 =>
          match parseJsonValue (f + 1) r2 with
          | none => none
          | some (v, r3) =>
            match skipWs r3 with
            | '}' :: r4 => some ([(String.mk k, v)], r4)
            | ',' :: r4 =>
              match parseJsonObjectItems f r4 with
              | some (kvs, r5) => some ((String.mk k, v) :: kvs, r5)
              | none => none
            | _ => none
        | _ => none
    | _ => none
termination_by f cs => (f, 1)

end

/-- Model of `json.loads` on the store fragment: parse one value,
allow trailing whitespace, reject trailing data. -/
def json_loads (cs : List Char) : Option PyObj :=
  match parseJsonValue (cs.length + 1) cs with
  | some (v, rest) => if skipWs rest = [] then some v else none
  | none => none

/-- Embedding of `_read_chats_json` on the file text: blank
(whitespace-only) content yields the empty dict, anything else goes
through `json.loads`. -/
def read_chats_text (content : List Char) : Option PyObj :=
  if skipWs content = [] then some (.pyDict [])
  else json_loads content

/-- One message as the Python object `json.loads` yields for it. -/
def messageToPyObj (m : GigaChatMessage) : PyObj :=
  .pyDict [("role", .pyStr m.role), ("content", .pyStr m.content)]

/-- The store mapping as the Python object `json.loads` yields for its
file. -/
def chatsToPyObj (m : Chats) : PyObj :=
  .pyDict (m.map fun kv => (kv.1, .pyList (kv.2.map messageToPyObj)))

/-- Reading a loaded Python object back off as a typed store mapping
(the loaded dict IS the `chats` mapping in the source; this conversion
recovers the typed view). -/
def pyObjToMessage : PyObj → Option GigaChatMessage
  | .pyDict [("role", .pyStr r), ("content", .pyStr c)] => some ⟨r, c⟩
  | _ => none

def pyObjToMessages : List PyObj → Option (List GigaChatMessage)
  | [] => some []
  | x :: xs =>
    match pyObjToMessage x, pyObjToMessages xs with
    | some m, some ms => some (m :: ms)
    | _, _ => none

def pyKvsToChats : List (String × PyObj) → Option Chats
  | [] => some []
  | (k, .pyList xs) :: rest =>
    match pyObjToMessages xs, pyKvsToChats rest with
    | some ms, some tail => some ((k, ms) :: tail)
    | _, _ => none
  | _ => none

def pyObjToChats : PyObj → Option Chats
  | .pyDict kvs => pyKvsToChats kvs
  | _ => none

/-- Save-then-load at the typed level: write the store file, read it
back, view the loaded object as a mapping. -/
def storeRoundTrip (m : Chats) : Option Chats :=
  match read_chats_text (write_chats_text m) with
  | some obj => pyObjToChats obj
  | none => none

/-- Total number of messages across the store (a fuel budget). -/
def totalMsgs : Chats → Nat
  | [] => 0
  | (_, v) :: rest => v.length + totalMsgs rest

/-- Connector state used by the concrete witnesses: one selected empty
chat `"t"`, nothing flushed yet. -/
def witnessConnector : Connector :=
  { chats := [("t", [])], current_chat_id := some "t", disk := [] }

/-- Store used by the round-trip witness: two chats, non-ASCII content,
more than one message in order. -/
def c6SampleStore : Chats :=
  [("c1", [⟨"user", "привет"⟩, ⟨"assistant", "здравствуйте — how can I help?"⟩]),
   ("c2", [⟨"system", "ты — ассистент"⟩])]

/-! ### Theorems -/

example : get_datetime_from_timestamp 1700000000 = .ok ⟨1700000000⟩ := by decide

example : get_datetime_from_timestamp 1700000000000 = .ok ⟨1700000000⟩ := by decide

example : is_base64 "YTpiOmM=".toList = .ok true := by decide

example : b64decode "YTpiOmM=".toList = .ok [97, 58, 98, 58, 99] := by decide

example : is_base64 "a*b".toList = .ok false := by decide

example : utf8Decode [97, 58, 98] = .ok ['a', ':', 'b'] := by decide

example : utf8Decode [0xD0, 0xBF] = .ok ['п'] := by decide

example : utf8Decode [0xFF] = .error .unicodeDecodeError := by decide

example : utf8Decode [0xC0, 0x80] = .error .unicodeDecodeError := by decide

example : pySplit ':' "a:b:c".toList = [['a'], ['b'], ['c']] := by decide

example : pySplit ':' "ab".toList = [['a', 'b']] := by decide

example : pySplit ':' ":".toList = [[], []] := by decide

example : secretShapeAt "aaaaaaaa-aaaa-aaaa-aaaa-aaaaaaaa".toList = true := by decide

example : secretShapeAt "aaaaaaaa-aaaa-aaaa-aaaa-aaaaaaaaaaaa".toList = true := by decide

example : secretShapeAt "aaaaaaaa-aaaa-aaaa-aaaa-aaaaaaaaZZ!".toList = true := by decide

example : secretShapeAt "AAAAAAAA-AAAA-AAAA-AAAA-AAAAAAAAAAAA".toList = false := by decide

example : secretShapeAt "aaaaaaaa-aaaa-aaaa-aaaa-aaaaaaa".toList = false := by decide

example : is_auth_token "YTpiOmM=".toList
    = .error (.valueError "too many values to unpack (expected 2)") := by decide

example : is_auth_token credGenuineUuids.toList = .ok true := by decide

example : is_auth_token credShortTails.toList = .ok true := by decide

example : is_auth_token credUpperUuids.toList = .ok false := by decide

example : claimedUuidShape "12345678-abcd-ef01-2345-678901234567".toList = true := by decide

example : claimedUuidShape "AAAAAAAA-AAAA-AAAA-AAAA-AAAAAAAAAAAA".toList = true := by decide

example : claimedUuidShape "aaaaaaaa-aaaa-aaaa-aaaa-aaaaaaaa".toList = false := by decide

/-- `pySplit` never returns an empty list of parts. -/
theorem pySplit_ne_nil (sep : Char) (cs : List Char) : pySplit sep cs ≠ [] := by
  induction cs with
  | nil => simp [pySplit]
  | cons c rest ih =>
    simp only [pySplit]
    split
    · simp
    · cases h : pySplit sep rest with
      | nil => exact absurd h ih
      | cons part parts => simp

/-- The number of parts returned by `pySplit` is one more than the
number of separators in the input. -/
theorem pySplit_length (sep : Char) (cs : List Char) :
    (pySplit sep cs).length = cs.count sep + 1 := by
  induction cs with
  | nil => simp [pySplit]
  | cons c rest ih =>
    by_cases hc : c = sep
    · subst hc
      simp [pySplit, List.count_cons, ih]
    · cases h : pySplit sep rest with
      | nil => exact absurd h (pySplit_ne_nil sep rest)
      | cons part parts =>
        have hlen := ih
        rw [h] at hlen
        simp only [List.length_cons] at hlen
        simp only [pySplit, if_neg hc, h, List.length_cons, List.count_cons]
        simp only [beq_iff_eq, hc, Ne.symm hc, if_false, ite_false]
        omega

/-- A colon-free input splits into the single part equal to the input. -/
theorem pySplit_no_sep (sep : Char) (cs : List Char) (h : cs.count sep = 0) :
    pySplit sep cs = [cs] := by
  induction cs with
  | nil => simp [pySplit]
  | cons c rest ih =>
    rw [List.count_cons] at h
    have hc : ¬ c = sep := by
      intro hcc
      simp [hcc] at h
    have hrest : rest.count sep = 0 := by omega
    simp only [pySplit, if_neg hc, ih hrest]

/-! ### Round-trip lemmas for the store serialization -/

theorem stringMk_data (s : String) : String.mk s.data = s := rfl

@[simp] theorem skipWs_nil : skipWs [] = [] := rfl

theorem skipWs_cons_ws (c : Char) (cs : List Char) (h : isJsonWs c = true) :
    skipWs (c :: cs) = skipWs cs := by
  simp [skipWs, List.dropWhile_cons, h]

theorem skipWs_cons_not_ws (c : Char) (cs : List Char) (h : isJsonWs c = false) :
    skipWs (c :: cs) = c :: cs := by
  simp [skipWs, List.dropWhile_cons, h]

@[simp] theorem skipWs_space_cons (cs : List Char) : skipWs (' ' :: cs) = skipWs cs :=
  skipWs_cons_ws _ _ (by decide)

theorem skipWs_replicate_space (n : Nat) (cs : List Char) :
    skipWs (List.replicate n ' ' ++ cs) = skipWs cs := by
  induction n with
  | zero => simp
  | succ k ih => simpa [List.replicate_succ] using ih

@[simp] theorem skipWs_nlIndent_append (lvl : Nat) (cs : List Char) :
    skipWs (nlIndent lvl ++ cs) = skipWs cs := by
  simp only [nlIndent, List.cons_append]
  rw [skipWs_cons_ws _ _ (by decide), skipWs_replicate_space]

@[simp] theorem skipWs_quote_cons (cs : List Char) : skipWs ('"' :: cs) = '"' :: cs :=
  skipWs_cons_not_ws _ _ (by decide)

@[simp] theorem skipWs_lbrace_cons (cs : List Char) : skipWs ('{' :: cs) = '{' :: cs :=
  skipWs_cons_not_ws _ _ (by decide)

@[simp] theorem skipWs_rbrace_cons (cs : List Char) : skipWs ('}' :: cs) = '}' :: cs :=
  skipWs_cons_not_ws _ _ (by decide)

@[simp] theorem skipWs_lbracket_cons (cs : List Char) : skipWs ('[' :: cs) = '[' :: cs :=
  skipWs_cons_not_ws _ _ (by decide)

@[simp] theorem skipWs_rbracket_cons (cs : List Char) : skipWs (']' :: cs) = ']' :: cs :=
  skipWs_cons_not_ws _ _ (by decide)

@[simp] theorem skipWs_comma_cons (cs : List Char) : skipWs (',' :: cs) = ',' :: cs :=
  skipWs_cons_not_ws _ _ (by decide)

@[simp] theorem skipWs_colon_cons (cs : List Char) : skipWs (':' :: cs) = ':' :: cs :=
  skipWs_cons_not_ws _ _ (by decide)

theorem fromHex_toHex (n : Nat) (h : n < 16) : fromHexDigit (toHexDigit n) = some n := by
  revert h
  revert n
  decide

theorem parseStringBody_esc_step (rest : List Char) :
    parseStringBody ('\\' :: rest) = parseStringEsc rest := rfl

theorem parseStringEsc_u_step (rest : List Char) :
    parseStringEsc ('u' :: rest) = parseStringU rest := rfl

theorem parseStringBody_lit_step (c : Char) (rest : List Char)
    (h1 : ¬ c = '"') (h2 : ¬ c = '\\') (h3 : ¬ c.toNat < 0x20) :
    parseStringBody (c :: rest) = mapConsChar c (parseStringBody rest) := by
  rw [parseStringBody, if_neg h1, if_neg h2, if_neg h3]

theorem parseStringU_control (t : Nat) (h : t < 32) (rest : List Char) :
    parseStringU ('0' :: '0' :: toHexDigit (t / 16) :: toHexDigit (t % 16) :: rest)
      = mapConsChar (Char.ofNat t) (parseStringBody rest) := by
  have e0 : fromHexDigit '0' = some 0 := by decide
  have e3 : fromHexDigit (toHexDigit (t / 16)) = some (t / 16) := fromHex_toHex _ (by omega)
  have e4 : fromHexDigit (toHexDigit (t % 16)) = some (t % 16) := fromHex_toHex _ (by omega)
  have hhex : hex4 '0' '0' (toHexDigit (t / 16)) (toHexDigit (t % 16)) = some t := by
    rw [hex4, e0, e3, e4]
    exact congrArg some (by omega)
  simp only [parseStringU, hhex]
  rw [if_neg (by omega), if_neg (by omega)]

/-- Scanning the escaped form of a string recovers it exactly. -/
theorem parse_escapeChars (s : List Char) :
    ∀ r : List Char, parseStringBody (escapeChars s ++ '"' :: r) = some (s, r) := by
  induction s with
  | nil => intro r; simp [escapeChars, parseStringBody]
  | cons c s ih =>
    intro r
    by_cases h1 : c = '"'
    · subst h1
      simp [escapeChars, escChar, parseStringBody, parseStringEsc, mapConsChar, ih]
    · by_cases h2 : c = '\\'
      · subst h2
        simp [escapeChars, escChar, parseStringBody, parseStringEsc, mapConsChar, ih]
      · by_cases h3 : c = Char.ofNat 8
        · subst h3
          simp [escapeChars, escChar, parseStringBody, parseStringEsc, mapConsChar, ih]
        · by_cases h4 : c = Char.ofNat 9
          · subst h4
            simp [escapeChars, escChar, parseStringBody, parseStringEsc, mapConsChar, ih]
          · by_cases h5 : c = Char.ofNat 10
            · subst h5
              simp [escapeChars, escChar, parseStringBody, parseStringEsc, mapConsChar, ih]
            · by_cases h6 : c = Char.ofNat 12
              · subst h6
                simp [escapeChars, escChar, parseStringBody, parseStringEsc, mapConsChar, ih]
              · by_cases h7 : c = Char.ofNat 13
                · subst h7
                  simp [escapeChars, escChar, parseStringBody, parseStringEsc, mapConsChar, ih]
                · by_cases h8 : c.toNat < 0x20
                  · have hesc : escChar c = ['\\', 'u', '0', '0',
                        toHexDigit (c.toNat / 16), toHexDigit (c.toNat % 16)] := by
                      simp [escChar, h1, h2, h3, h4, h5, h6, h7, h8]
                    simp only [escapeChars, hesc]
                    simp only [List.cons_append, List.append_assoc, List.nil_append]
                    rw [parseStringBody_esc_step, parseStringEsc_u_step,
                      parseStringU_control c.toNat h8, ih, Char.ofNat_toNat]
                    simp [mapConsChar]
                  · have hesc : escChar c = [c] := by
                      simp [escChar, h1, h2, h3, h4, h5, h6, h7, h8]
                    simp only [escapeChars, hesc]
                    simp only [List.cons_append, List.nil_append]
                    rw [parseStringBody_lit_step c _ h1 h2 (by omega), ih]
                    simp [mapConsChar]

theorem stringMk_toList (s : String) : String.mk s.toList = s := rfl

/-- Parsing a serialized string value. -/
theorem parseJsonValue_string (s : String) (f : Nat) (hf : 1 ≤ f) (cs r : List Char)
    (h : skipWs cs = encodeJsonString s.toList ++ r) :
    parseJsonValue f cs = some (.pyStr s, r) := by
  obtain ⟨g, rfl⟩ : ∃ g, f = g + 1 := ⟨f - 1, by omega⟩
  have h' : skipWs cs = '"' :: (escapeChars s.toList ++ '"' :: r) := by
    rw [h]; simp [encodeJsonString]
  simp only [parseJsonValue, h']
  simp [parse_escapeChars, stringMk_toList]

/-- Parsing a final object item whose value is a string (the `"key": "val"`
just before the closing brace). -/
theorem parseJsonObjectItems_last_str (key val : String) (lvl : Nat) (r cs : List Char)
    (f : Nat) (hf : 1 <= f)
    (h : skipWs cs = encodeJsonString key.toList ++ ':' :: ' ' ::
        encodeJsonString val.toList ++ nlIndent lvl ++ '}' :: r) :
    parseJsonObjectItems f cs = some ([(key, .pyStr val)], r) := by
  obtain ⟨g, rfl⟩ : ∃ g, f = g + 1 := ⟨f - 1, by omega⟩
  have h' : skipWs cs = '"' :: (escapeChars key.toList ++ ('"' :: (':' :: (' ' ::
      (encodeJsonString val.toList ++ (nlIndent lvl ++ ('}' :: r))))))) := by
    rw [h]; simp [encodeJsonString, List.cons_append, List.append_assoc]
  simp only [parseJsonObjectItems, h', parse_escapeChars, skipWs_colon_cons]
  rw [parseJsonValue_string val (g + 1) (by omega) _ (nlIndent lvl ++ ('}' :: r))
    (by rw [skipWs_space_cons]
        simp [encodeJsonString, List.cons_append, List.append_assoc])]
  simp only [skipWs_nlIndent_append, skipWs_rbrace_cons]
  simp [stringMk_toList]

/-- Parsing the two serialized items of a message object. -/
theorem parseJsonObjectItems_msgpair (lvl : Nat) (m : GigaChatMessage) (r cs : List Char)
    (f : Nat) (hf : 2 <= f)
    (h : skipWs cs = encodeJsonString "role".toList ++ ':' :: ' ' ::
        encodeJsonString m.role.toList ++ ',' :: nlIndent (lvl + 1) ++
        encodeJsonString "content".toList ++ ':' :: ' ' ::
        encodeJsonString m.content.toList ++ nlIndent lvl ++ '}' :: r) :
    parseJsonObjectItems f cs
      = some ([("role", .pyStr m.role), ("content", .pyStr m.content)], r) := by
  obtain ⟨g, rfl⟩ : ∃ g, f = g + 1 := ⟨f - 1, by omega⟩
  have h' : skipWs cs = '"' :: (escapeChars "role".toList ++ ('"' :: (':' :: (' ' ::
      (encodeJsonString m.role.toList ++ (',' :: (nlIndent (lvl + 1) ++
        (encodeJsonString "content".toList ++ (':' :: (' ' ::
          (encodeJsonString m.content.toList ++ (nlIndent lvl ++ ('}' :: r))))))))))))) := by
    rw [h]; simp [encodeJsonString, List.cons_append, List.append_assoc]
  simp only [parseJsonObjectItems, h', parse_escapeChars, skipWs_colon_cons]
  rw [parseJsonValue_string m.role (g + 1) (by omega) _
    (',' :: (nlIndent (lvl + 1) ++ (encodeJsonString "content".toList ++ (':' :: (' ' ::
      (encodeJsonString m.content.toList ++ (nlIndent lvl ++ ('}' :: r))))))))
    (by rw [skipWs_space_cons]
        simp [encodeJsonString, List.cons_append, List.append_assoc])]
  simp only [skipWs_comma_cons]
  rw [parseJsonObjectItems_last_str "content" m.content lvl r _ g (by omega)
    (by simp [encodeJsonString, List.cons_append, List.append_assoc])]
  simp [stringMk_toList]

/-- Parsing a serialized message object as a value. -/
theorem parseJsonValue_message (lvl : Nat) (m : GigaChatMessage) (r cs : List Char)
    (f : Nat) (hf : 3 <= f) (h : skipWs cs = dumpMessage lvl m ++ r) :
    parseJsonValue f cs = some (messageToPyObj m, r) := by
  obtain ⟨g, rfl⟩ : ∃ g, f = g + 1 := ⟨f - 1, by omega⟩
  have h' : skipWs cs = ('{' :: (nlIndent (lvl + 1) ++ (encodeJsonString "role".toList ++ (':' :: (' ' :: (encodeJsonString m.role.toList ++ (',' :: (nlIndent (lvl + 1) ++ (encodeJsonString "content".toList ++ (':' :: (' ' :: (encodeJsonString m.content.toList ++ (nlIndent lvl ++ ('}' :: r)))))))))))))) := by
    rw [h]; simp [dumpMessage, List.cons_append, List.append_assoc]
  have h'' : skipWs (nlIndent (lvl + 1) ++ (encodeJsonString "role".toList ++ (':' :: (' ' :: (encodeJsonString m.role.toList ++ (',' :: (nlIndent (lvl + 1) ++ (encodeJsonString "content".toList ++ (':' :: (' ' :: (encodeJsonString m.content.toList ++ (nlIndent lvl ++ ('}' :: r))))))))))))) = ('"' :: (escapeChars "role".toList ++ ('"' :: (':' :: (' ' :: (encodeJsonString m.role.toList ++ (',' :: (nlIndent (lvl + 1) ++ (encodeJsonString "content".toList ++ (':' :: (' ' :: (encodeJsonString m.content.toList ++ (nlIndent lvl ++ ('}' :: r)))))))))))))) := by
    simp [encodeJsonString, List.cons_append, List.append_assoc]
  simp only [parseJsonValue, h', h'']
  rw [parseJsonObjectItems_msgpair lvl m r _ g (by omega)
    (by simp [encodeJsonString, List.cons_append, List.append_assoc])]
  simp [messageToPyObj]

theorem dumpMessages_head (L : Nat) (m : GigaChatMessage) (msgs : List GigaChatMessage) :
    ∃ ys, dumpMessages L (m :: msgs) = '{' :: ys := by
  cases msgs with
  | nil => exact ⟨_, rfl⟩
  | cons m2 rest => exact ⟨_, rfl⟩

theorem skipWs_dumpMessages_append (L : Nat) (m : GigaChatMessage)
    (msgs : List GigaChatMessage) (X : List Char) :
    skipWs (dumpMessages L (m :: msgs) ++ X) = dumpMessages L (m :: msgs) ++ X := by
  obtain ⟨ys, hys⟩ := dumpMessages_head L m msgs
  rw [hys, List.cons_append, skipWs_lbrace_cons]

/-- Parsing the serialized items of a non-empty conversation array. -/
theorem parseJsonArrayItems_msgs (L lc : Nat) (msgs : List GigaChatMessage)
    (r cs : List Char) (f : Nat) (hne : msgs ≠ []) (hf : msgs.length + 3 <= f)
    (h : skipWs cs = dumpMessages L msgs ++ (nlIndent lc ++ (']' :: r))) :
    parseJsonArrayItems f cs = some (msgs.map messageToPyObj, r) := by
  induction msgs generalizing cs f r with
  | nil => exact absurd rfl hne
  | cons m msgs' ih =>
    obtain ⟨g, rfl⟩ : ∃ g, f = g + 1 := ⟨f - 1, by omega⟩
    cases msgs' with
    | nil =>
      simp only [dumpMessages] at h
      simp only [parseJsonArrayItems]
      rw [parseJsonValue_message L m (nlIndent lc ++ (']' :: r)) cs (g + 1) (by omega) h]
      simp only [skipWs_nlIndent_append, skipWs_rbracket_cons]
      simp
    | cons m2 rest =>
      simp only [dumpMessages] at h
      simp only [parseJsonArrayItems]
      rw [parseJsonValue_message L m
        (',' :: (nlIndent L ++ (dumpMessages L (m2 :: rest) ++ (nlIndent lc ++ (']' :: r)))))
        cs (g + 1) (by omega)
        (by rw [h]; simp [List.append_assoc, List.cons_append])]
      simp only [skipWs_comma_cons]
      rw [ih r (nlIndent L ++ (dumpMessages L (m2 :: rest) ++ (nlIndent lc ++ (']' :: r)))) g
        (by simp) (by simp only [List.length_cons] at hf ⊢; omega)
        (by rw [skipWs_nlIndent_append, skipWs_dumpMessages_append])]
      simp

theorem dumpConv_head (L : Nat) (msgs : List GigaChatMessage) :
    ∃ ys, dumpConv L msgs = '[' :: ys := by
  cases msgs with
  | nil => exact ⟨_, rfl⟩
  | cons m rest => exact ⟨_, rfl⟩

theorem skipWs_dumpConv_append (L : Nat) (msgs : List GigaChatMessage) (X : List Char) :
    skipWs (dumpConv L msgs ++ X) = dumpConv L msgs ++ X := by
  obtain ⟨ys, hys⟩ := dumpConv_head L msgs
  rw [hys, List.cons_append, skipWs_lbracket_cons]

/-- Parsing a serialized conversation array as a value. -/
theorem parseJsonValue_conv (lvl : Nat) (msgs : List GigaChatMessage) (r cs : List Char)
    (f : Nat) (hf : msgs.length + 4 <= f) (h : skipWs cs = dumpConv lvl msgs ++ r) :
    parseJsonValue f cs = some (.pyList (msgs.map messageToPyObj), r) := by
  obtain ⟨g, rfl⟩ : ∃ g, f = g + 1 := ⟨f - 1, by omega⟩
  cases msgs with
  | nil =>
    have h' : skipWs cs = '[' :: (']' :: r) := by
      rw [h]; simp [dumpConv]
    simp only [parseJsonValue, h', skipWs_rbracket_cons]
    simp
  | cons m msgs' =>
    obtain ⟨ys, hys⟩ := dumpMessages_head (lvl + 1) m msgs'
    have h' : skipWs cs = '[' :: (nlIndent (lvl + 1) ++
        (dumpMessages (lvl + 1) (m :: msgs') ++ (nlIndent lvl ++ (']' :: r)))) := by
      rw [h]; simp [dumpConv, List.append_assoc, List.cons_append]
    have h'' : skipWs (nlIndent (lvl + 1) ++
        (dumpMessages (lvl + 1) (m :: msgs') ++ (nlIndent lvl ++ (']' :: r))))
        = '{' :: (ys ++ (nlIndent lvl ++ (']' :: r))) := by
      rw [skipWs_nlIndent_append, skipWs_dumpMessages_append, hys]
      simp [List.cons_append, List.append_assoc]
    simp only [parseJsonValue, h', h'']
    rw [parseJsonArrayItems_msgs (lvl + 1) lvl (m :: msgs') r _ g
      (by simp) (by simp only [List.length_cons] at hf ⊢; omega)
      (by rw [skipWs_nlIndent_append, skipWs_dumpMessages_append])]
    simp

theorem dumpChatsItems_head (L : Nat) (k : String) (v : List GigaChatMessage)
    (rest : Chats) : ∃ ys, dumpChatsItems L ((k, v) :: rest) = '"' :: ys := by
  cases rest with
  | nil =>
    exact ⟨escapeChars k.toList ++ ('"' :: (':' :: (' ' :: dumpConv L v))),
      by simp [dumpChatsItems, encodeJsonString, List.cons_append, List.append_assoc]⟩
  | cons p rest' =>
    exact ⟨escapeChars k.toList ++ ('"' :: (':' :: (' ' :: (dumpConv L v ++
        (',' :: (nlIndent L ++ dumpChatsItems L (p :: rest'))))))),
      by simp [dumpChatsItems, encodeJsonString, List.cons_append, List.append_assoc]⟩

theorem skipWs_dumpChatsItems_append (L : Nat) (k : String) (v : List GigaChatMessage)
    (rest : Chats) (X : List Char) :
    skipWs (dumpChatsItems L ((k, v) :: rest) ++ X) = dumpChatsItems L ((k, v) :: rest) ++ X := by
  obtain ⟨ys, hys⟩ := dumpChatsItems_head L k v rest
  rw [hys, List.cons_append, skipWs_quote_cons]

/-- Parsing the serialized items of a non-empty store object. -/
theorem parseJsonObjectItems_chats (L lc : Nat) (chats : Chats) (r cs : List Char) (f : Nat)
    (hne : chats ≠ []) (hf : chats.length + totalMsgs chats + 4 <= f)
    (h : skipWs cs = dumpChatsItems L chats ++ (nlIndent lc ++ ('}' :: r))) :
    parseJsonObjectItems f cs
      = some (chats.map (fun kv => (kv.1, PyObj.pyList (kv.2.map messageToPyObj))), r) := by
  induction chats generalizing cs f r with
  | nil => exact absurd rfl hne
  | cons kv chats' ih =>
    obtain ⟨k, v⟩ := kv
    obtain ⟨g, rfl⟩ : ∃ g, f = g + 1 := ⟨f - 1, by omega⟩
    cases chats' with
    | nil =>
      simp only [dumpChatsItems] at h
      have h' : skipWs cs = '"' :: (escapeChars k.toList ++ ('"' :: (':' :: (' ' ::
          (dumpConv L v ++ (nlIndent lc ++ ('}' :: r))))))) := by
        rw [h]; simp [encodeJsonString, List.cons_append, List.append_assoc]
      simp only [parseJsonObjectItems, h', parse_escapeChars, skipWs_colon_cons]
      rw [parseJsonValue_conv L v (nlIndent lc ++ ('}' :: r)) _ (g + 1)
        (by simp only [totalMsgs, List.length_cons] at hf ⊢; omega)
        (by rw [skipWs_space_cons, skipWs_dumpConv_append])]
      simp only [skipWs_nlIndent_append, skipWs_rbrace_cons]
      simp [stringMk_toList]
    | cons kv2 rest =>
      obtain ⟨k2, v2⟩ := kv2
      simp only [dumpChatsItems] at h
      have h' : skipWs cs = '"' :: (escapeChars k.toList ++ ('"' :: (':' :: (' ' ::
          (dumpConv L v ++ (',' :: (nlIndent L ++ (dumpChatsItems L ((k2, v2) :: rest) ++
            (nlIndent lc ++ ('}' :: r)))))))))) := by
        rw [h]; simp [encodeJsonString, List.cons_append, List.append_assoc]
      simp only [parseJsonObjectItems, h', parse_escapeChars, skipWs_colon_cons]
      rw [parseJsonValue_conv L v
        (',' :: (nlIndent L ++ (dumpChatsItems L ((k2, v2) :: rest) ++
          (nlIndent lc ++ ('}' :: r))))) _ (g + 1)
        (by simp only [totalMsgs, List.length_cons] at hf ⊢; omega)
        (by rw [skipWs_space_cons, skipWs_dumpConv_append])]
      simp only [skipWs_comma_cons]
      rw [ih r (nlIndent L ++ (dumpChatsItems L ((k2, v2) :: rest) ++
          (nlIndent lc ++ ('}' :: r)))) g (by simp)
        (by simp only [totalMsgs, List.length_cons] at hf ⊢; omega)
        (by rw [skipWs_nlIndent_append, skipWs_dumpChatsItems_append])]
      simp [stringMk_toList]

/-- Parsing a serialized store object as a value. -/
theorem parseJsonValue_chats (m : Chats) (r cs : List Char) (f : Nat)
    (hf : m.length + totalMsgs m + 5 <= f) (h : skipWs cs = dumpChats m ++ r) :
    parseJsonValue f cs = some (chatsToPyObj m, r) := by
  obtain ⟨g, rfl⟩ : ∃ g, f = g + 1 := ⟨f - 1, by omega⟩
  cases m with
  | nil =>
    have h' : skipWs cs = '{' :: ('}' :: r) := by
      rw [h]; simp [dumpChats]
    simp only [parseJsonValue, h', skipWs_rbrace_cons]
    simp [chatsToPyObj]
  | cons kv chats' =>
    obtain ⟨k, v⟩ := kv
    obtain ⟨ys, hys⟩ := dumpChatsItems_head 1 k v chats'
    have h' : skipWs cs = '{' :: (nlIndent 1 ++
        (dumpChatsItems 1 ((k, v) :: chats') ++ (nlIndent 0 ++ ('}' :: r)))) := by
      rw [h]; simp [dumpChats, List.append_assoc, List.cons_append]
    have h'' : skipWs (nlIndent 1 ++
        (dumpChatsItems 1 ((k, v) :: chats') ++ (nlIndent 0 ++ ('}' :: r))))
        = '"' :: (ys ++ (nlIndent 0 ++ ('}' :: r))) := by
      rw [skipWs_nlIndent_append, skipWs_dumpChatsItems_append, hys]
      simp [List.cons_append, List.append_assoc]
    simp only [parseJsonValue, h', h'']
    rw [parseJsonObjectItems_chats 1 0 ((k, v) :: chats') r _ g (by simp)
      (by simp only [totalMsgs, List.length_cons] at hf ⊢; omega)
      (by rw [skipWs_nlIndent_append, skipWs_dumpChatsItems_append])]
    simp [chatsToPyObj]

theorem nlIndent_length (l : Nat) : (nlIndent l).length = 4 * l + 1 := by
  simp [nlIndent]

theorem encodeJsonString_length_ge (s : List Char) : 2 <= (encodeJsonString s).length := by
  simp [encodeJsonString]

theorem dumpMessage_length_ge (L : Nat) (m : GigaChatMessage) :
    2 <= (dumpMessage L m).length := by
  simp [dumpMessage, nlIndent_length]
  omega

theorem dumpMessages_length_ge (L : Nat) (msgs : List GigaChatMessage) :
    2 * msgs.length <= (dumpMessages L msgs).length := by
  induction msgs with
  | nil => simp [dumpMessages]
  | cons m msgs' ih =>
    cases msgs' with
    | nil =>
      have := dumpMessage_length_ge L m
      simp only [dumpMessages, List.length_cons, List.length_nil]
      omega
    | cons m2 rest =>
      have h1 := dumpMessage_length_ge L m
      simp only [dumpMessages, List.length_append, List.length_cons,
        nlIndent_length] at ih ⊢
      omega

theorem dumpConv_length_ge (L : Nat) (v : List GigaChatMessage) :
    2 * v.length + 2 <= (dumpConv L v).length := by
  cases v with
  | nil => simp [dumpConv]
  | cons m rest =>
    have := dumpMessages_length_ge (L + 1) (m :: rest)
    simp only [dumpConv, List.length_append, List.length_cons, List.length_nil,
      nlIndent_length] at this ⊢
    omega

theorem dumpChatsItems_length_ge (L : Nat) (chats : Chats) :
    6 * chats.length + 2 * totalMsgs chats <= (dumpChatsItems L chats).length := by
  induction chats with
  | nil => simp [dumpChatsItems, totalMsgs]
  | cons kv chats' ih =>
    obtain ⟨k, v⟩ := kv
    cases chats' with
    | nil =>
      have h1 := encodeJsonString_length_ge k.toList
      have h2 := dumpConv_length_ge L v
      simp only [dumpChatsItems, totalMsgs, List.length_append, List.length_cons,
        List.length_nil]
      omega
    | cons kv2 rest =>
      have h1 := encodeJsonString_length_ge k.toList
      have h2 := dumpConv_length_ge L v
      simp only [dumpChatsItems, totalMsgs, List.length_append, List.length_cons,
        nlIndent_length] at ih ⊢
      omega

theorem dumpChats_length_ge (kv : String × List GigaChatMessage) (chats' : Chats) :
    6 * (kv :: chats').length + 2 * totalMsgs (kv :: chats') + 8
      <= (dumpChats (kv :: chats')).length + 1 := by
  have h1 := dumpChatsItems_length_ge 1 (kv :: chats')
  simp only [dumpChats, List.length_append, List.length_cons, nlIndent_length] at h1 ⊢
  omega

theorem dumpChats_cons_head (kv : String × List GigaChatMessage) (chats' : Chats) :
    ∃ ys, dumpChats (kv :: chats') = '{' :: ys := by
  obtain ⟨k, v⟩ := kv
  exact ⟨nlIndent 1 ++ (dumpChatsItems 1 ((k, v) :: chats') ++ (nlIndent 0 ++ ['}'])),
    by simp [dumpChats, List.cons_append, List.append_assoc]⟩

theorem pyObjToMessages_map (v : List GigaChatMessage) :
    pyObjToMessages (v.map messageToPyObj) = some v := by
  induction v with
  | nil => simp [pyObjToMessages]
  | cons m rest ih =>
    simp [pyObjToMessages, messageToPyObj, pyObjToMessage, ih]

theorem pyObjToChats_chatsToPyObj (m : Chats) : pyObjToChats (chatsToPyObj m) = some m := by
  have aux : ∀ l : Chats,
      pyKvsToChats (l.map fun kv => (kv.1, PyObj.pyList (kv.2.map messageToPyObj)))
        = some l := by
    intro l
    induction l with
    | nil => simp [pyKvsToChats]
    | cons kv rest ih =>
      obtain ⟨k, v⟩ := kv
      simp [pyKvsToChats, pyObjToMessages_map, ih]
  simp [pyObjToChats, chatsToPyObj, aux]

theorem dumpChats_nil_ne (kv : String × List GigaChatMessage) (chats' : Chats) :
    skipWs (dumpChats (kv :: chats')) ≠ [] := by
  obtain ⟨ys, hys⟩ := dumpChats_cons_head kv chats'
  rw [hys, skipWs_lbrace_cons]
  simp

theorem store_save_load_id (m : Chats) : storeRoundTrip m = some m := by
  cases m with
  | nil =>
    have hparse : parseJsonValue 3 ['{', '}'] = some (.pyDict [], []) := by
      rw [show (3 : Nat) = 2 + 1 from rfl]
      simp only [parseJsonValue, skipWs_lbrace_cons, skipWs_rbrace_cons]
      simp
    simp only [storeRoundTrip, write_chats_text, dumpChats, read_chats_text, json_loads]
    rw [if_neg (by rw [skipWs_lbrace_cons]; simp)]
    simp only [List.length_cons, List.length_nil, hparse, skipWs_nil, if_pos]
    simp [pyObjToChats, pyKvsToChats]
  | cons kv chats' =>
    obtain ⟨ys, hys⟩ := dumpChats_cons_head kv chats'
    have hskip : skipWs (dumpChats (kv :: chats')) = dumpChats (kv :: chats') := by
      rw [hys, skipWs_lbrace_cons]
    have hparse : parseJsonValue ((dumpChats (kv :: chats')).length + 1)
        (dumpChats (kv :: chats')) = some (chatsToPyObj (kv :: chats'), []) := by
      apply parseJsonValue_chats
      · have hlen := dumpChats_length_ge kv chats'
        omega
      · rw [hskip, List.append_nil]
    simp only [storeRoundTrip, write_chats_text, read_chats_text,
      if_neg (dumpChats_nil_ne kv chats'), json_loads, hparse, skipWs_nil, if_pos]
    exact pyObjToChats_chatsToPyObj _

theorem pySplit_mem_count (decoded : List Char) :
    decoded.any (fun c => c = ':') = true ↔ decoded.count ':' ≠ 0 := by
  simp [List.any_eq_true, List.count_eq_zero]

theorem is_auth_token_iff_amended (cs : List Char) :
    is_auth_token cs = .ok true ↔ amended_is_valid_credential cs = true := by
  unfold is_auth_token amended_is_valid_credential is_base64
  cases hb : b64decode cs with
  | error e => cases e <;> simp
  | ok bytes =>
    simp only []
    cases hu : utf8Decode bytes with
    | error e => simp
    | ok decoded =>
      simp only []
      by_cases hc : decoded.any (fun c => c = ':') = true
      · have hcount : decoded.count ':' ≠ 0 := (pySplit_mem_count decoded).mp hc
        have hlen := pySplit_length ':' decoded
        cases hs : pySplit ':' decoded with
        | nil => exact absurd hs (pySplit_ne_nil ':' decoded)
        | cons a tail =>
          cases tail with
          | nil =>
            rw [hs] at hlen
            simp at hlen
            omega
          | cons b tail2 =>
            cases tail2 with
            | nil =>
              simp only [hc, hs]
              by_cases ha : secretShapeAt a <;> by_cases hb2 : secretShapeAt b <;>
                simp [ha, hb2]
            | cons c tail3 =>
              simp only [hc, hs]
              simp
      · have hc' : decoded.any (fun c => c = ':') = false := by
          revert hc; cases decoded.any (fun c => c = ':') <;> simp
        have hcount : decoded.count ':' = 0 := by
          by_contra hne
          exact absurd ((pySplit_mem_count decoded).mpr hne) (by simp [hc'])
        rw [pySplit_no_sep ':' decoded hcount]
        simp [hc']

theorem dictGet_dictSet_self (m : Chats) (k : String) (v : List GigaChatMessage) :
    dictGet (dictSet m k v) k = some v := by
  induction m with
  | nil => simp [dictSet, dictGet]
  | cons kv rest ih =>
    obtain ⟨k', v'⟩ := kv
    by_cases h : k' = k
    · simp [dictSet, dictGet, h]
    · simp [dictSet, dictGet, h, ih]

theorem dictHasKey_dictSet_self (m : Chats) (k : String) (v : List GigaChatMessage) :
    dictHasKey (dictSet m k v) k = true := by
  induction m with
  | nil => simp [dictSet, dictHasKey]
  | cons kv rest ih =>
    obtain ⟨k', v'⟩ := kv
    by_cases h : k' = k
    · simp [dictSet, dictHasKey, h]
    · simp [dictSet, dictHasKey, h]
      simp [dictHasKey] at ih
      exact ih

theorem dictSet_dictSet (m : Chats) (k : String) (v1 v2 : List GigaChatMessage) :
    dictSet (dictSet m k v1) k v2 = dictSet m k v2 := by
  induction m with
  | nil => simp [dictSet]
  | cons kv rest ih =>
    obtain ⟨k', v'⟩ := kv
    by_cases h : k' = k
    · simp [dictSet, h]
    · simp [dictSet, h, ih]

/-- C1: the claim says the lazy `access_token` accessor re-runs
`authorize` if and only if the held token's `expires_at` is in the past;
the code does the opposite.  At `now = 0` with a held token expiring at
`3600` (the future) the accessor re-authorizes and replaces the token,
and at `now = 10` with a token that expired at `0` it performs no
authorize call and returns the expired token unchanged. -/
theorem C1_token_refresh_inverted :
    (access_token_read ⟨0⟩ ⟨"fresh", ⟨9999⟩⟩ ⟨"held", ⟨3600⟩⟩).2.2 = true ∧
    (access_token_read ⟨0⟩ ⟨"fresh", ⟨9999⟩⟩ ⟨"held", ⟨3600⟩⟩).1 = ⟨"fresh", ⟨9999⟩⟩ ∧
    (access_token_read ⟨10⟩ ⟨"fresh", ⟨9999⟩⟩ ⟨"held", ⟨0⟩⟩).2.2 = false ∧
    (access_token_read ⟨10⟩ ⟨"fresh", ⟨9999⟩⟩ ⟨"held", ⟨0⟩⟩).1 = ⟨"held", ⟨0⟩⟩ := by
  decide

/-- C2: for EVERY `ask` call whose completion request fails — whatever
the failing status (429, 400, 401, 404, 422, 500, other) and error —
the active conversation retains exactly one new message, the
just-appended user message with the given text, gains no assistant
message, exactly one flush (the user-turn flush) happened, and the call
propagates the completion failure unchanged; when the failing status is
429, that failure is the rate-limit error. -/
theorem C2_ask_completion_failure_atomic (st : Connector) (cid : String)
    (conv : List GigaChatMessage) (text : String) (tok : AccessToken)
    (maxTok : Nat) (resp : HttpResponse) (e : PyErr)
    (hcur : st.current_chat_id = some cid) (hconv : dictGet st.chats cid = some conv)
    (hfail : _get_answer tok maxTok (conv ++ [⟨"user", text⟩]) resp = .error e) :
    ask st text tok maxTok resp
      = (.error e,
         { st with chats := dictSet st.chats cid (conv ++ [⟨"user", text⟩]),
                   disk := st.disk ++ [dictSet st.chats cid (conv ++ [⟨"user", text⟩])] }) ∧
    (resp.status_code = 429 → e = .exception "[ 429 ] Too many requests") := by
  constructor
  · simp [ask, add_message, hcur, hconv, write_chats_json, get_answer, get_messages,
      dictGet_dictSet_self, hfail]
  · intro h429
    obtain ⟨sc, body⟩ := resp
    simp only at h429
    subst h429
    simp only [_get_answer] at hfail
    exact (Except.error.inj hfail).symm

/-- C2 witness: a 429 rate-limit failure and a 500 server failure, each
leaving exactly the user turn recorded with one flush. -/
theorem C2_ask_completion_failure_witness :
    (ask witnessConnector "hello" ⟨"tok", ⟨0⟩⟩ 100 ⟨429, .pyDict []⟩
      = (.error (.exception "[ 429 ] Too many requests"),
         { witnessConnector with
             chats := dictSet witnessConnector.chats "t" ([] ++ [⟨"user", "hello"⟩]),
             disk := witnessConnector.disk ++
               [dictSet witnessConnector.chats "t" ([] ++ [⟨"user", "hello"⟩])] }) ∧
     ((429 : Nat) = 429 → PyErr.exception "[ 429 ] Too many requests"
        = .exception "[ 429 ] Too many requests")) ∧
    (ask witnessConnector "hello" ⟨"tok", ⟨0⟩⟩ 100 ⟨500, .pyDict []⟩
      = (.error (.exception "[ 500 ] Internal server error"),
         { witnessConnector with
             chats := dictSet witnessConnector.chats "t" ([] ++ [⟨"user", "hello"⟩]),
             disk := witnessConnector.disk ++
               [dictSet witnessConnector.chats "t" ([] ++ [⟨"user", "hello"⟩])] }) ∧
     ((500 : Nat) = 429 → PyErr.exception "[ 500 ] Internal server error"
        = .exception "[ 429 ] Too many requests")) :=
  ⟨C2_ask_completion_failure_atomic witnessConnector "t" [] "hello" ⟨"tok", ⟨0⟩⟩ 100
      ⟨429, .pyDict []⟩ (.exception "[ 429 ] Too many requests") rfl rfl (by decide),
   C2_ask_completion_failure_atomic witnessConnector "t" [] "hello" ⟨"tok", ⟨0⟩⟩ 100
      ⟨500, .pyDict []⟩ (.exception "[ 500 ] Internal server error") rfl rfl (by decide)⟩

/-- C3: a successful `ask` appends exactly the user message then the
assistant message from `choices[0].message`, flushes the store once
after each append (in that order), and returns the assistant content. -/
theorem C3_ask_success_two_messages_two_flushes (st : Connector) (cid : String)
    (conv : List GigaChatMessage) (text c : String) (tok : AccessToken) (maxTok : Nat)
    (hcur : st.current_chat_id = some cid) (hconv : dictGet st.chats cid = some conv) :
    ask st text tok maxTok
      ⟨200, .pyDict [("choices", .pyList [.pyDict [("message", .pyDict
        [("role", .pyStr "assistant"), ("content", .pyStr c)])]])]⟩
      = (.ok c,
         { st with
             chats := dictSet st.chats cid (conv ++ [⟨"user", text⟩, ⟨"assistant", c⟩]),
             disk := st.disk ++
               [dictSet st.chats cid (conv ++ [⟨"user", text⟩]),
                dictSet st.chats cid (conv ++ [⟨"user", text⟩, ⟨"assistant", c⟩])] }) := by
  simp [ask, add_message, hcur, hconv, write_chats_json, get_answer, get_messages,
    _get_answer, dictGet_dictSet_self, pyDictGet, pyIndex, List.lookup, dictSet_dictSet]

/-- C3 witness. -/
theorem C3_ask_success_witness :
    ask witnessConnector "hello" ⟨"tok", ⟨0⟩⟩ 100
      ⟨200, .pyDict [("choices", .pyList [.pyDict [("message", .pyDict
        [("role", .pyStr "assistant"), ("content", .pyStr "hi")])]])]⟩
      = (.ok "hi",
         { witnessConnector with
             chats := dictSet witnessConnector.chats "t"
               ([] ++ [⟨"user", "hello"⟩, ⟨"assistant", "hi"⟩]),
             disk := witnessConnector.disk ++
               [dictSet witnessConnector.chats "t" ([] ++ [⟨"user", "hello"⟩]),
                dictSet witnessConnector.chats "t"
                  ([] ++ [⟨"user", "hello"⟩, ⟨"assistant", "hi"⟩])] }) :=
  C3_ask_success_two_messages_two_flushes witnessConnector "t" [] "hello" "hi"
    ⟨"tok", ⟨0⟩⟩ 100 rfl rfl

/-- C4 counterexample: the claimed equivalence fails in both directions.
`credShortTails` (base64 of two halves whose final group has only 8
characters) is accepted by the code but is not of the claimed UUID
shape; `credUpperUuids` (base64 of two uppercase UUIDs) is of the
claimed case-insensitive shape but the code rejects it. -/
theorem C4_validator_claim_counterexample :
    is_auth_token credShortTails.toList = .ok true ∧
    spec_is_valid_credential credShortTails.toList = false ∧
    is_auth_token credUpperUuids.toList = .ok false ∧
    spec_is_valid_credential credUpperUuids.toList = true := by
  refine ⟨by decide, by decide, by decide, by decide⟩

/-- C4 (amended): the validator answers `True` iff the input is valid
(strict, ASCII) base64 whose bytes decode as UTF-8 to a text containing
exactly one `:`, where each half merely BEGINS with the lowercase-only
pattern `[a-z0-9]{8}(-[a-z0-9]{4}){3}-[a-z0-9]{8}` (final group of 8,
prefix matching, no case-insensitivity). -/
theorem C4_validator_amended (s : String) :
    is_auth_token s.toList = .ok true ↔ amended_is_valid_credential s.toList = true :=
  is_auth_token_iff_amended s.toList

/-- C5: the claim says no exception escapes the credential validator;
the code lets the two-target unpacking of `split(":")` raise
`ValueError` when the decoded text has two or more colons.
`"YTpiOmM="` is base64 of `"a:b:c"`, and the validator raises instead
of returning a boolean. -/
theorem C5_validator_raises_on_two_colons :
    is_auth_token "YTpiOmM=".toList
      = .error (.valueError "too many values to unpack (expected 2)") := by
  decide

/-- C6: saving a conversation-store mapping and loading the file back
yields the same mapping — message order and non-ASCII text included
(the hypothesis states that chat identifiers are unique, i.e. that the
association list is a genuine mapping). -/
theorem C6_save_load_identity (m : Chats) (hkeys : (m.map Prod.fst).Nodup) :
    storeRoundTrip m = some m :=
  store_save_load_id m

/-- C6 witness. -/
theorem C6_save_load_witness :
    (c6SampleStore.map Prod.fst).Nodup ∧ storeRoundTrip c6SampleStore = some c6SampleStore :=
  ⟨by decide, C6_save_load_identity c6SampleStore (by decide)⟩

/-- C7: `add_chat` succeeds on a fresh id — creating an empty
conversation and flushing it — and a second call with the same id fails
with the duplicate-chat `ValueError` while leaving the store (both the
mapping and the flush log, whose last entry is the on-disk image)
exactly as the first call left it. -/
theorem C7_add_chat_twice (st : Connector) (id : String)
    (h : is_chat_exists st id = false) :
    add_chat st id
      = (.ok (), { st with chats := dictSet st.chats id [],
                           disk := st.disk ++ [dictSet st.chats id []] }) ∧
    add_chat { st with chats := dictSet st.chats id [],
                       disk := st.disk ++ [dictSet st.chats id []] } id
      = (.error (.valueError ("Chat " ++ id ++ " already exists")),
         { st with chats := dictSet st.chats id [],
                   disk := st.disk ++ [dictSet st.chats id []] }) := by
  constructor
  · simp [add_chat, h, write_chats_json]
  · simp [add_chat, is_chat_exists, dictHasKey_dictSet_self]

/-- C7 witness. -/
theorem C7_add_chat_twice_witness :
    is_chat_exists witnessConnector "x" = false ∧
    (add_chat witnessConnector "x"
      = (.ok (), { witnessConnector with
                     chats := dictSet witnessConnector.chats "x" [],
                     disk := witnessConnector.disk ++
                       [dictSet witnessConnector.chats "x" []] }) ∧
     add_chat { witnessConnector with
                  chats := dictSet witnessConnector.chats "x" [],
                  disk := witnessConnector.disk ++
                    [dictSet witnessConnector.chats "x" []] } "x"
      = (.error (.valueError ("Chat " ++ "x" ++ " already exists")),
         { witnessConnector with
             chats := dictSet witnessConnector.chats "x" [],
             disk := witnessConnector.disk ++
               [dictSet witnessConnector.chats "x" []] })) :=
  ⟨by decide, C7_add_chat_twice witnessConnector "x" (by decide)⟩

/-- C8: the `expires_at` conversion accepts second- and
millisecond-resolution epoch values: when the direct conversion
succeeds the result is the direct conversion, and when it raises the
range `ValueError` the result is the conversion of the timestamp
floor-divided by 1000. -/
theorem C8_timestamp_millis_fallback (t : Int) :
    (∀ dt, utcfromtimestamp t = .ok dt → get_datetime_from_timestamp t = .ok dt) ∧
    ((∃ e, utcfromtimestamp t = .error e) →
      get_datetime_from_timestamp t = utcfromtimestamp (Int.fdiv t 1000)) := by
  unfold get_datetime_from_timestamp
  cases h : utcfromtimestamp t with
  | ok dt => simp
  | error e => simp

/-- C8 witness. -/
theorem C8_timestamp_millis_fallback_witness :
    get_datetime_from_timestamp 1700000000 = .ok ⟨1700000000⟩ ∧
    get_datetime_from_timestamp 1700000000000 = utcfromtimestamp (Int.fdiv 1700000000000 1000) :=
  ⟨(C8_timestamp_millis_fallback 1700000000).1 ⟨1700000000⟩ (by decide),
   (C8_timestamp_millis_fallback 1700000000000).2
     ⟨.valueError "year is out of range", by decide⟩⟩

/-- C9: the OAuth request built by the token exchange is independent of
the configured `api_scope`/`api_type`: for the same credential and
correlation id, any two scope values produce identical requests, and
the scope field of the body is the constant `"GIGACHAT_API_PERS"`. -/
theorem C9_scope_constant (auth_token s1 s2 rquid : String) :
    build_oauth_request auth_token s1 rquid = build_oauth_request auth_token s2 rquid ∧
    (build_oauth_request auth_token s1 rquid).bodyScope = "GIGACHAT_API_PERS" :=
  ⟨rfl, rfl⟩

/-- C10: on a 200 balance response whose `balance` list is empty, the
accessor raises `IndexError` — an error outside the documented
taxonomy — because the fallback unconditionally indexes the first
entry; so it neither returns a value nor fails with a documented
error. -/
theorem C10_balance_empty_list (body : PyObj)
    (h : pyDictGet body "balance" = .ok (.pyList [])) :
    balance_read ⟨200, body⟩ = .error .indexError ∧
    PyErr.isDocumentedFault .indexError = false := by
  constructor
  · simp [balance_read, _get_balance, balance_value, h, balanceScan, pyIndex]
  · rfl

/-- C10 witness. -/
theorem C10_balance_empty_list_witness :
    pyDictGet (.pyDict [("balance", .pyList [])]) "balance" = .ok (.pyList []) ∧
    (balance_read ⟨200, .pyDict [("balance", .pyList [])]⟩ = .error .indexError ∧
     PyErr.isDocumentedFault .indexError = false) :=
  ⟨rfl, C10_balance_empty_list (.pyDict [("balance", .pyList [])]) rfl⟩
